import Mathlib

/-!
Verification of the long-running-operation (LRO) polling/event core of the
gcloud-node repository.

The embedded code is `Operation` from `packages/speech/src/v1/speech_api.js`
(constructor, `listenForEvents_`, `startPolling_`, `promise`) together with
`Functions.prototype.operation` and `Functions.prototype._formatName` from
`packages/functions/src/index.js`.

The poller is modelled as a small-step state machine.  The mutable fields of
a JS `Operation` that the poller reads and writes are `completeListeners`
(a counter) and `hasActiveListeners` (a boolean); in addition the embedding
tracks how many `get` RPCs are currently in flight and how many `setTimeout`
callbacks are currently scheduled, because the JS event loop may interleave
their resolutions with listener (de)registrations.  Environment actions are:

* `subscribe`      — a caller runs `.on(\x7bcomplete\x7d, f)`: the emitter fires
  `newListener` synchronously, so `completeListeners` is incremented and, if
  `hasActiveListeners` was false, it is set and `startPolling_` runs, which
  issues a `get` fetch because the flag is now true;
* `subscribeOther` — a caller registers a listener for an event other than
  `complete` (for example the `error` handler installed by `promise()`);
  the `newListener` handler ignores it;
* `unsubscribe`    — a caller removes one `complete` listener (possible only
  when one is registered): the counter is decremented and, when it reaches
  zero, `hasActiveListeners` is cleared;
* `fetchResolve err resp` — the callback of one in-flight `get` runs with
  `(err, resp)`: on `err || resp.error` it emits `error` carrying
  `err || common.GrpcService.decorateStatus_(resp.result)`; otherwise on
  `!resp.done` it schedules `startPolling_` again after 500 ms; otherwise it
  emits `complete` with the full response payload;
* `timerFire`      — one scheduled `setTimeout` callback runs
  `startPolling_`, which issues a fetch only if `hasActiveListeners` holds.

Observable events (fetches issued, timers armed with their delay, `error`
and `complete` emissions) are collected in a trace.
-/

namespace GcloudNode

/-- The operation status payload returned by the `get` RPC, as inspected by
`startPolling_`: the `done` flag, the logical `error` field (only its JS
truthiness matters, so it is an `Option`), the `response` field, the
operation `name`, and the `result` field that is passed to the
`decorateStatus_` hook.  `α` is the opaque content type. -/
structure Payload (α : Type) where
  done : Bool
  error : Option α
  response : Option α
  name : String
  result : Option α
deriving DecidableEq

/-- The value carried by an emitted `error` event: either the transport
error `err` itself, or the (externally supplied) decoration hook
`common.GrpcService.decorateStatus_` applied to the payload's `result`
field, represented symbolically by the `decorated` constructor. -/
inductive ErrVal (α : Type) where
  | transport (e : α)
  | decorated (r : Option α)
deriving DecidableEq

/-- The decision taken by the body of the `get` callback inside
`startPolling_` for one poll response. -/
inductive PollOutcome (α : Type) where
  | emitError (e : ErrVal α)
  | schedule (delay : Nat)
  | emitComplete (p : Payload α)
deriving DecidableEq

/-- The body of the `get` callback in `Operation.prototype.startPolling_`:
`if (err || resp.error) \x7b emit error (err || decorateStatus_(resp.result)) \x7d
else if (!resp.done) \x7b setTimeout(startPolling_, 500) \x7d
else \x7b emit complete resp \x7d`. -/
def pollCallback {α : Type} (err : Option α) (resp : Payload α) : PollOutcome α :=
  match err with
  | some e => .emitError (.transport e)
  | none =>
      if resp.error.isSome then .emitError (.decorated resp.result)
      else if resp.done then .emitComplete resp
      else .schedule 500

/-- The mutable client-side state of one `Operation`: the listener counter
and activity flag from the constructor, plus the number of in-flight `get`
fetches and of pending `setTimeout` callbacks. -/
structure OpState where
  completeListeners : Nat
  hasActiveListeners : Bool
  fetchesInFlight : Nat
  timersScheduled : Nat
deriving DecidableEq

/-- The state established by the `Operation` constructor: zero listeners,
inactive, nothing in flight.  `listenForEvents_` only registers the
`newListener` / `removeListener` meta-handlers and issues no fetch. -/
def opInit : OpState :=
  { completeListeners := 0, hasActiveListeners := false,
    fetchesInFlight := 0, timersScheduled := 0 }

/-- Environment actions driving one `Operation`. -/
inductive Action (α : Type) where
  | subscribe
  | subscribeOther
  | unsubscribe
  | fetchResolve (err : Option α) (resp : Payload α)
  | timerFire
deriving DecidableEq

/-- Observable events of one `Operation`: a `get` RPC being issued, a
`setTimeout` being armed with its delay, and the two emitter events. -/
inductive Event (α : Type) where
  | fetchIssued
  | scheduled (delay : Nat)
  | errorEvent (e : ErrVal α)
  | completeEvent (p : Payload α)
deriving DecidableEq

/-- `Operation.prototype.startPolling_` up to its asynchronous callback: if
`hasActiveListeners` is false it returns at once; otherwise it calls
`this.get`, putting one more fetch in flight. -/
def startPolling {α : Type} (s : OpState) : OpState × List (Event α) :=
  if s.hasActiveListeners then
    ({ s with fetchesInFlight := s.fetchesInFlight + 1 }, [.fetchIssued])
  else (s, [])

/-- One small step of the `Operation` machine under an environment action.
Actions whose JS trigger cannot occur in the given state (removing a
listener that is not registered, resolving a fetch that is not in flight,
firing a timer that is not scheduled) leave the state unchanged. -/
def step {α : Type} (s : OpState) : Action α → OpState × List (Event α)
  | .subscribe =>
      let s1 := { s with completeListeners := s.completeListeners + 1 }
      if s1.hasActiveListeners then (s1, [])
      else startPolling { s1 with hasActiveListeners := true }
  | .subscribeOther => (s, [])
  | .unsubscribe =>
      if s.completeListeners = 0 then (s, [])
      else
        let n := s.completeListeners - 1
        ({ s with completeListeners := n,
                  hasActiveListeners := if n = 0 then false else s.hasActiveListeners }, [])
  | .fetchResolve err resp =>
      if s.fetchesInFlight = 0 then (s, [])
      else
        let s1 := { s with fetchesInFlight := s.fetchesInFlight - 1 }
        match pollCallback err resp with
        | .emitError e => (s1, [.errorEvent e])
        | .schedule d => ({ s1 with timersScheduled := s1.timersScheduled + 1 }, [.scheduled d])
        | .emitComplete p => (s1, [.completeEvent p])
  | .timerFire =>
      if s.timersScheduled = 0 then (s, [])
      else startPolling { s with timersScheduled := s.timersScheduled - 1 }

/-- Run a list of environment actions from a state, collecting the trace. -/
def run {α : Type} (s : OpState) : List (Action α) → OpState × List (Event α)
  | [] => (s, [])
  | a :: rest =>
      let p := step s a
      let q := run p.1 rest
      (q.1, p.2 ++ q.2)

/-- Number of `get` fetches plus pending timers: the pending poll cycles. -/
def pending (s : OpState) : Nat := s.fetchesInFlight + s.timersScheduled

/-- Whether an action is a `complete` subscription. -/
def isSubscribe {α : Type} : Action α → Bool
  | .subscribe => true
  | _ => false

/-- Whether an action is a `complete` subscription or unsubscription. -/
def isSubUnsub {α : Type} : Action α → Bool
  | .subscribe => true
  | .unsubscribe => true
  | _ => false

/-- Whether an event is the issuing of a `get` fetch. -/
def isFetchIssued {α : Type} : Event α → Bool
  | .fetchIssued => true
  | _ => false

/-- Whether an event is terminal (`complete` or `error`). -/
def isTerminal {α : Type} : Event α → Bool
  | .errorEvent _ => true
  | .completeEvent _ => true
  | _ => false

/-- A trace with no fetch issued. -/
def noFetchIssued {α : Type} (evs : List (Event α)) : Bool :=
  evs.all fun e => !(isFetchIssued e)

/-- A trace containing some terminal event. -/
def hasTerminal {α : Type} (evs : List (Event α)) : Bool :=
  evs.any isTerminal

/-- A trace containing no terminal event. -/
def terminalFree {α : Type} (evs : List (Event α)) : Bool :=
  evs.all fun e => !(isTerminal e)

/-- Every action in the list is a `complete` subscribe or unsubscribe. -/
def onlySubUnsub {α : Type} (acts : List (Action α)) : Bool :=
  acts.all isSubUnsub

/-- No action in the list is a `complete` subscription. -/
def noSubscribes {α : Type} (acts : List (Action α)) : Bool :=
  acts.all fun a => !(isSubscribe a)

/-- Along the run from `s`, every `subscribe` action happens while
`hasActiveListeners` is set (listener count positive). -/
def subsWhileActive {α : Type} : OpState → List (Action α) → Bool
  | _, [] => true
  | s, a :: rest =>
      (!(isSubscribe a) || s.hasActiveListeners) && subsWhileActive (step s a).1 rest

/-- Along the run from `s`, every `subscribe` action happens while the
operation is active or has no pending poll cycle — ruling out the race of
re-subscribing while a stale cycle of a previous subscription period is
still pending. -/
def subsSafe {α : Type} : OpState → List (Action α) → Bool
  | _, [] => true
  | s, a :: rest =>
      (!(isSubscribe a) || s.hasActiveListeners || pending s == 0)
        && subsSafe (step s a).1 rest

/-- The settlement of the future returned by `Operation.prototype.promise`:
the `error` handler rejects with the received error, the `complete` handler
resolves with `[metadata]` (the metadata wrapped in a one-element array, the
promisify calling convention). -/
inductive Settle (α : Type) where
  | rejected (e : ErrVal α)
  | resolved (ms : List (Payload α))
deriving DecidableEq

/-- How the promise returned by `Operation.prototype.promise` settles for a
given trace: the first terminal event wins (a promise settles only once),
`error e` rejects with `e`, `complete p` resolves with `[p]`. -/
def promiseOutcome {α : Type} : List (Event α) → Option (Settle α)
  | [] => none
  | .errorEvent e :: _ => some (.rejected e)
  | .completeEvent p :: _ => some (.resolved [p])
  | _ :: rest => promiseOutcome rest

/-- The listener registrations performed synchronously by
`Operation.prototype.promise`: `.on(\x7berror\x7d, reject)` (an event other
than `complete`, so no listener accounting) followed by
`.on(\x7bcomplete\x7d, ...)`. -/
def promiseCreateActs {α : Type} : List (Action α) :=
  [.subscribeOther, .subscribe]

/-- The three observable behaviours a poll cycle can choose between. -/
inductive Choice where
  | errorChoice
  | rescheduleChoice
  | completeChoice
deriving DecidableEq

/-- The choice (forgetting the emitted value) of a poll outcome. -/
def toChoice {α : Type} : PollOutcome α → Choice
  | .emitError _ => .errorChoice
  | .schedule _ => .rescheduleChoice
  | .emitComplete _ => .completeChoice

/-! ### The Cloud Functions client: `operation` factory and `_formatName` -/

/-- The per-client configuration read by `_formatName`:
`this.projectId` and `this.region`. -/
structure FunctionsClient where
  projectId : String
  region : String
deriving DecidableEq

/-- An operation handle as returned by `Functions.prototype.operation`:
`new Operation(this, name)` stores the name and starts in the inert
constructor state (no listeners, no fetch). -/
structure OperationHandle where
  opName : String
  st : OpState
deriving DecidableEq

/-- The `Operation` constructor: stores the name; `listenForEvents_` only
registers meta-handlers, so the poller state is `opInit`. -/
def newOperation (name : String) : OperationHandle :=
  { opName := name, st := opInit }

/-- `Functions.prototype.operation`: `if (!name) throw new Error(...)`,
otherwise `return new Operation(this, name)`.  The argument is `none` when
the caller passes no name; the JS falsy strings are exactly the empty
string.  The synchronous throw is modelled as `Except.error`. -/
def operation (name : Option String) : Except String OperationHandle :=
  match name with
  | none => .error "A name must be specified for an operation."
  | some n =>
      if n = "" then .error "A name must be specified for an operation."
      else .ok (newOperation n)

/-- Modelled from the spec: the generated `this.api.Functions.functionPath`
helper is not part of the sources; per the documented format, a Cloud
Function full name is
`projects/\x7bprojectId\x7d/locations/\x7bregion\x7d/functions/\x7bname\x7d`. -/
def functionPath (projectId region name : String) : String :=
  "projects/" ++ projectId ++ "/locations/" ++ region ++ "/functions/" ++ name

/-- `name.indexOf(\x7b/\x7d) > -1`: the name contains a slash. -/
def hasSlash (s : String) : Bool :=
  s.data.contains '/'

/-- `Functions.prototype._formatName`: return `name` unchanged when it is
already formatted (contains a slash); otherwise fall back to the client's
`projectId` / `region` for falsy arguments and build the full path. -/
def _formatName (self : FunctionsClient) (projectId region name : String) : String :=
  if hasSlash name then name
  else
    functionPath (if projectId = "" then self.projectId else projectId)
                 (if region = "" then self.region else region) name

/-! ### Concrete sample data used for counterexamples and witnesses -/

/-- A successful final status payload over `Nat` content. -/
def doneResp : Payload Nat :=
  { done := true, error := none, response := some 7, name := "op", result := none }

/-- The same payload as `doneResp` except for the `result` field. -/
def doneRespAlt : Payload Nat :=
  { done := true, error := none, response := some 7, name := "op", result := some 9 }

/-- A still-pending status payload over `Nat` content. -/
def pendingResp : Payload Nat :=
  { done := false, error := none, response := none, name := "op", result := none }

/-- A payload whose logical `error` field is set. -/
def errResp : Payload Nat :=
  { done := false, error := some 5, response := none, name := "op", result := some 9 }

/-- A state with one subscriber and one fetch in flight. -/
def busyState : OpState :=
  { completeListeners := 1, hasActiveListeners := true,
    fetchesInFlight := 1, timersScheduled := 0 }

/-- The state right after the last subscriber unsubscribed while one fetch
was still in flight. -/
def drainState : OpState :=
  { completeListeners := 0, hasActiveListeners := false,
    fetchesInFlight := 1, timersScheduled := 0 }

/-! ### Helper lemmas about the poller state machine -/

/-- Splitting `noFetchIssued` over an appended trace. -/
theorem noFetchIssued_append {α : Type} (l1 l2 : List (Event α)) :
    noFetchIssued (l1 ++ l2) = (noFetchIssued l1 && noFetchIssued l2) := by
  simp [noFetchIssued, List.all_append]

/-- One step preserves the invariant that the activity flag mirrors
positivity of the `complete` listener counter. -/
theorem listenerInv_step {α : Type} (s : OpState) (a : Action α)
    (h : s.hasActiveListeners = true ↔ 0 < s.completeListeners) :
    (step s a).1.hasActiveListeners = true ↔ 0 < (step s a).1.completeListeners := by
  cases a with
  | subscribe =>
      by_cases hb : s.hasActiveListeners = true
      · simp [step, startPolling, hb]
      · simp [step, startPolling, hb]
  | subscribeOther => simpa [step] using h
  | unsubscribe =>
      by_cases h0 : s.completeListeners = 0
      · simpa [step, h0] using h
      · by_cases h1 : s.completeListeners - 1 = 0
        · simp [step, h0, h1]
        · have hpos : 0 < s.completeListeners := Nat.pos_of_ne_zero h0
          simp [step, h0, h1, h.mpr hpos]
          omega
  | fetchResolve err resp =>
      by_cases h0 : s.fetchesInFlight = 0
      · simpa [step, h0] using h
      · cases hpc : pollCallback err resp <;> simpa [step, h0, hpc] using h
  | timerFire =>
      by_cases h0 : s.timersScheduled = 0
      · simpa [step, h0] using h
      · by_cases hb : s.hasActiveListeners = true
        · simpa [step, startPolling, h0, hb] using h
        · simpa [step, startPolling, h0, hb] using h

/-- The activity-flag invariant holds along every run. -/
theorem listenerInv_run {α : Type} (acts : List (Action α)) (s : OpState)
    (h : s.hasActiveListeners = true ↔ 0 < s.completeListeners) :
    (run s acts).1.hasActiveListeners = true ↔ 0 < (run s acts).1.completeListeners := by
  induction acts generalizing s with
  | nil => simpa [run] using h
  | cons a rest ih => simpa [run] using ih (step s a).1 (listenerInv_step s a h)

/-- A step by a non-`subscribe` action from an inactive state stays
inactive, issues no fetch, and does not let trace length plus in-flight
fetches grow. -/
theorem step_inactive {α : Type} (s : OpState) (a : Action α)
    (hact : s.hasActiveListeners = false) (hns : isSubscribe a = false) :
    (step s a).1.hasActiveListeners = false ∧
    noFetchIssued (step s a).2 = true ∧
    (step s a).2.length + (step s a).1.fetchesInFlight ≤ s.fetchesInFlight := by
  cases a with
  | subscribe => simp [isSubscribe] at hns
  | subscribeOther => simp [step, noFetchIssued, hact]
  | unsubscribe =>
      by_cases h0 : s.completeListeners = 0
      · simp [step, h0, hact, noFetchIssued]
      · simp [step, h0, hact, noFetchIssued]
  | fetchResolve err resp =>
      by_cases h0 : s.fetchesInFlight = 0
      · simp [step, h0, hact, noFetchIssued]
      · cases hpc : pollCallback err resp <;>
          · simp [step, h0, hact, hpc, noFetchIssued, isFetchIssued]
            omega
  | timerFire =>
      by_cases h0 : s.timersScheduled = 0
      · simp [step, h0, hact, noFetchIssued]
      · simp [step, startPolling, h0, hact, noFetchIssued]

/-- Along a run with no `subscribe` action from an inactive state: the
state stays inactive, no fetch is ever issued, and the number of processed
poll responses (= emitted events) is bounded by the fetches that were in
flight at the start. -/
theorem inactive_run {α : Type} (acts : List (Action α)) (s : OpState)
    (hact : s.hasActiveListeners = false)
    (hns : noSubscribes acts = true) :
    (run s acts).1.hasActiveListeners = false ∧
    noFetchIssued (run s acts).2 = true ∧
    (run s acts).2.length + (run s acts).1.fetchesInFlight ≤ s.fetchesInFlight := by
  induction acts generalizing s with
  | nil => simpa [run, noFetchIssued] using hact
  | cons a rest ih =>
      have hns1 : isSubscribe a = false := by
        simp [noSubscribes] at hns
        simpa using hns.1
      have hns2 : noSubscribes rest = true := by
        simp [noSubscribes] at hns ⊢
        exact hns.2
      obtain ⟨ha1, ha2, ha3⟩ := step_inactive s a hact hns1
      obtain ⟨hb1, hb2, hb3⟩ := ih (step s a).1 ha1 hns2
      refine ⟨by simpa [run] using hb1, ?_, ?_⟩
      · simp [run, noFetchIssued_append, ha2]
        simpa [noFetchIssued] using hb2
      · simp only [run, List.length_append]
        omega

/-- A `subscribe`/`unsubscribe`-only run in which every subscribe happens
while the operation is active, started with no pending poll cycle, emits
nothing and keeps the pending count at zero. -/
theorem quiescent_run {α : Type} (acts : List (Action α)) (s : OpState)
    (hp : pending s = 0)
    (hsu : onlySubUnsub acts = true)
    (hswa : subsWhileActive s acts = true) :
    (run s acts).2 = [] ∧ pending (run s acts).1 = 0 := by
  induction acts generalizing s with
  | nil => simp [run, hp]
  | cons a rest ih =>
      have hsu1 : isSubUnsub a = true := by
        simp [onlySubUnsub] at hsu
        simpa using hsu.1
      have hsu2 : onlySubUnsub rest = true := by
        simp [onlySubUnsub] at hsu ⊢
        exact hsu.2
      have hswa' : subsWhileActive (step s a).1 rest = true := by
        simp [subsWhileActive] at hswa
        exact hswa.2
      have hstep : (step s a).2 = [] ∧ pending (step s a).1 = 0 := by
        cases a with
        | subscribe =>
            have hb : s.hasActiveListeners = true := by
              simp [subsWhileActive, isSubscribe] at hswa
              exact hswa.1
            simp [step, hb, pending] at hp ⊢
            exact hp
        | unsubscribe =>
            by_cases h0 : s.completeListeners = 0
            · simpa [step, h0, pending] using hp
            · simpa [step, h0, pending] using hp
        | subscribeOther => simpa [step, pending] using hp
        | fetchResolve err resp => simp [isSubUnsub] at hsu1
        | timerFire => simp [isSubUnsub] at hsu1
      obtain ⟨hb1, hb2⟩ := ih (step s a).1 hstep.2 hsu2 hswa'
      exact ⟨by simp [run, hstep.1, hb1], by simpa [run] using hb2⟩

/-- A step starting from at most one pending cycle, where a `subscribe` is
allowed only while active or with nothing pending, keeps at most one cycle
pending. -/
theorem pendingLe_step {α : Type} (s : OpState) (a : Action α)
    (hp : pending s ≤ 1)
    (hsafe : isSubscribe a = false ∨ s.hasActiveListeners = true ∨ pending s = 0) :
    pending (step s a).1 ≤ 1 := by
  cases a with
  | subscribe =>
      by_cases hb : s.hasActiveListeners = true
      · simpa [step, hb, pending] using hp
      · have h0 : pending s = 0 := by
          rcases hsafe with h | h | h
          · simp [isSubscribe] at h
          · exact absurd h hb
          · exact h
        have h0' : s.fetchesInFlight + s.timersScheduled = 0 := h0
        simp [step, startPolling, hb, pending]
        omega
  | subscribeOther => simpa [step, pending] using hp
  | unsubscribe =>
      by_cases h0 : s.completeListeners = 0
      · simpa [step, h0, pending] using hp
      · simpa [step, h0, pending] using hp
  | fetchResolve err resp =>
      by_cases h0 : s.fetchesInFlight = 0
      · simpa [step, h0, pending] using hp
      · cases hpc : pollCallback err resp <;>
          · simp [step, h0, hpc, pending] at hp ⊢
            omega
  | timerFire =>
      by_cases h0 : s.timersScheduled = 0
      · simpa [step, h0, pending] using hp
      · by_cases hb : s.hasActiveListeners = true
        · simp [step, startPolling, h0, hb, pending] at hp ⊢
          omega
        · simp [step, startPolling, h0, hb, pending] at hp ⊢
          omega

/-- Along a run in which every `subscribe` happens while active or with no
pending cycle, at most one poll cycle is ever pending. -/
theorem pendingLe_run {α : Type} (acts : List (Action α)) (s : OpState)
    (hp : pending s ≤ 1) (hsafe : subsSafe s acts = true) :
    pending (run s acts).1 ≤ 1 := by
  induction acts generalizing s with
  | nil => simpa [run] using hp
  | cons a rest ih =>
      have hpair :
          ((!(isSubscribe a) || s.hasActiveListeners || pending s == 0)
            && subsSafe (step s a).1 rest) = true := hsafe
      rw [Bool.and_eq_true] at hpair
      have h1 : isSubscribe a = false ∨ s.hasActiveListeners = true ∨ pending s = 0 := by
        by_cases hs : isSubscribe a = false
        · exact Or.inl hs
        · by_cases hb : s.hasActiveListeners = true
          · exact Or.inr (Or.inl hb)
          · have hh := hpair.1
            rw [Bool.not_eq_false] at hs
            simp only [Bool.not_eq_true] at hb
            simp [hs, hb] at hh
            exact Or.inr (Or.inr hh)
      have h2 : subsSafe (step s a).1 rest = true := hpair.2
      simpa [run] using ih (step s a).1 (pendingLe_step s a hp h1) h2

/-! ### Claim theorems -/

/-- C1 (counterexample): the claim fails on the code.  After the terminal
`complete` event has been emitted, the later subscribe/unsubscribe sequence
unsubscribe-then-resubscribe makes the poller issue a new status fetch
(the third `fetchIssued` below follows the `completeEvent`), because the
code keeps no terminal flag: a fresh `complete` subscription while
`hasActiveListeners` is false always calls `startPolling_`. -/
theorem C1_counterexample :
    (run opInit [Action.subscribe, .fetchResolve none doneResp,
        .unsubscribe, .subscribe]).2
      = [Event.fetchIssued, .completeEvent doneResp, .fetchIssued] ∧
    onlySubUnsub ([Action.unsubscribe, .subscribe] : List (Action Nat)) = true := by
  constructor
  · decide
  · decide

/-- C1 (amended): once a terminal event has been emitted and no fetch is in
flight nor poll timer pending, no subsequent status fetch — indeed no
observable event at all — occurs during any later sequence of `complete`
subscribe/unsubscribe actions in which every subscription happens while the
listener count is positive; a subscription made after the count has dropped
to zero restarts polling even after the terminal event. -/
theorem C1_amended_no_fetch_after_terminal {α : Type}
    (pre post : List (Action α))
    (_hterm : hasTerminal (run opInit pre).2 = true)
    (hf : (run opInit pre).1.fetchesInFlight = 0)
    (ht : (run opInit pre).1.timersScheduled = 0)
    (hsu : onlySubUnsub post = true)
    (hswa : subsWhileActive (run opInit pre).1 post = true) :
    (run (run opInit pre).1 post).2 = [] := by
  have hp : pending (run opInit pre).1 = 0 := by simp [pending, hf, ht]
  exact (quiescent_run post (run opInit pre).1 hp hsu hswa).1

/-- Witness for the amended C1 at a concrete post-terminal run. -/
theorem C1_amended_witness :
    (run (run opInit [Action.subscribe, .fetchResolve none doneResp]).1
        ([Action.subscribe, .unsubscribe] : List (Action Nat))).2 = [] :=
  C1_amended_no_fetch_after_terminal
    [Action.subscribe, .fetchResolve none doneResp]
    [Action.subscribe, .unsubscribe]
    (by decide) (by decide) (by decide) (by decide) (by decide)

/-- C2: for every Operation that has not reached a terminal event, the
"currently polling" flag `hasActiveListeners` is set iff the count of
registered `complete` listeners is positive; and for a freshly constructed
Operation no status fetch occurs before the first `complete` subscriber
registers (a run without any `subscribe` issues no fetch). -/
theorem C2_polling_iff_listeners {α : Type} (acts : List (Action α)) :
    (terminalFree (run opInit acts).2 = true →
      ((run opInit acts).1.hasActiveListeners = true ↔
        0 < (run opInit acts).1.completeListeners)) ∧
    (noSubscribes acts = true → noFetchIssued (run opInit acts).2 = true) := by
  constructor
  · intro _
    exact listenerInv_run acts opInit (by simp [opInit])
  · intro hns
    exact (inactive_run acts opInit (by simp [opInit]) hns).2.1

/-- Witness for C2 at concrete runs. -/
theorem C2_witness :
    ((run opInit ([Action.subscribe] : List (Action Nat))).1.hasActiveListeners = true ↔
      0 < (run opInit ([Action.subscribe] : List (Action Nat))).1.completeListeners) ∧
    noFetchIssued (run opInit ([Action.unsubscribe, .timerFire] : List (Action Nat))).2
      = true := by
  constructor
  · exact (C2_polling_iff_listeners [Action.subscribe]).1 (by decide)
  · exact (C2_polling_iff_listeners [Action.unsubscribe, .timerFire]).2 (by decide)

/-- C3: once the last `complete` subscriber has unsubscribed before a
terminal event (listener count zero, activity flag cleared), with at most
one fetch still in flight, any continuation without further subscriptions
issues no new fetch and processes at most one poll response — the one
already in flight; a merely scheduled timer leads to no fetch at all,
because `startPolling_` checks `hasActiveListeners` at the top of each
cycle. -/
theorem C3_at_most_one_fetch_after_unsubscribe {α : Type}
    (s : OpState) (acts : List (Action α))
    (_hcount : s.completeListeners = 0)
    (hact : s.hasActiveListeners = false)
    (hfl : s.fetchesInFlight ≤ 1)
    (hns : noSubscribes acts = true) :
    noFetchIssued (run s acts).2 = true ∧ (run s acts).2.length ≤ 1 := by
  obtain ⟨h1, h2, h3⟩ := inactive_run acts s hact hns
  exact ⟨h2, by omega⟩

/-- Witness for C3: an in-flight fetch resolves not-done after the last
unsubscribe; the rescheduled cycle then fetches nothing. -/
theorem C3_witness :
    noFetchIssued
        (run drainState [Action.fetchResolve none pendingResp, Action.timerFire]).2
      = true ∧
    (run drainState [Action.fetchResolve none pendingResp, Action.timerFire]).2.length
      ≤ 1 :=
  C3_at_most_one_fetch_after_unsubscribe drainState
    [Action.fetchResolve none pendingResp, Action.timerFire]
    (by decide) (by decide) (by decide) (by decide)

/-- C4: when a poll fetch resolves with both a transport error and a
payload whose logical `error` field is set, the emitted `error` event
carries the transport error; when only the logical `error` field is set,
it carries the decoration hook applied to the payload's `result` field. -/
theorem C4_transport_error_precedence {α : Type} (s : OpState)
    (e : α) (resp : Payload α)
    (hfl : 0 < s.fetchesInFlight)
    (hlog : resp.error.isSome = true) :
    (step s (Action.fetchResolve (some e) resp)).2
      = [Event.errorEvent (.transport e)] ∧
    (step s (Action.fetchResolve none resp)).2
      = [Event.errorEvent (.decorated resp.result)] := by
  have h0 : ¬ s.fetchesInFlight = 0 := by omega
  constructor
  · simp [step, h0, pollCallback]
  · simp [step, h0, pollCallback, hlog]

/-- Witness for C4 at a concrete state and payload. -/
theorem C4_witness :
    (step busyState (Action.fetchResolve (some 3) errResp)).2
      = [Event.errorEvent (.transport 3)] ∧
    (step busyState (Action.fetchResolve none errResp)).2
      = [Event.errorEvent (.decorated errResp.result)] :=
  C4_transport_error_precedence busyState 3 errResp (by decide) (by decide)

/-- C5: an error-free poll response with `done == false` schedules exactly
one further fetch after the fixed 500-unit delay; one with `done == true`
emits `complete` exactly once carrying the full payload; and in the
concrete run where the first response is `done: false` and the second is
`done: true` with response value `x`, exactly two fetches occur and
`complete` fires once with a payload whose `response` is `x`. -/
theorem C5_fixed_delay_and_complete {α : Type}
    (s : OpState) (resp : Payload α) (x : α) (nm : String)
    (hfl : 0 < s.fetchesInFlight)
    (herr : resp.error = none) :
    (resp.done = false →
      step s (Action.fetchResolve none resp)
        = ({ s with fetchesInFlight := s.fetchesInFlight - 1,
                    timersScheduled := s.timersScheduled + 1 },
           [Event.scheduled 500])) ∧
    (resp.done = true →
      step s (Action.fetchResolve none resp)
        = ({ s with fetchesInFlight := s.fetchesInFlight - 1 },
           [Event.completeEvent resp])) ∧
    (run opInit [Action.subscribe,
        .fetchResolve none { done := false, error := none, response := none,
                             name := nm, result := none },
        .timerFire,
        .fetchResolve none { done := true, error := none, response := some x,
                             name := nm, result := none }]).2
      = [Event.fetchIssued, .scheduled 500, .fetchIssued,
         .completeEvent { done := true, error := none, response := some x,
                          name := nm, result := none }] := by
  have h0 : ¬ s.fetchesInFlight = 0 := by omega
  refine ⟨?_, ?_, ?_⟩
  · intro hd
    simp [step, h0, pollCallback, herr, hd]
  · intro hd
    simp [step, h0, pollCallback, herr, hd]
  · rfl

/-- Witness for C5 at a concrete state and payloads. -/
theorem C5_witness :
    (run opInit [Action.subscribe,
        .fetchResolve none { done := false, error := none, response := none,
                             name := "op", result := none },
        .timerFire,
        .fetchResolve none { done := true, error := none, response := some 3,
                             name := "op", result := none }]).2
      = [Event.fetchIssued, .scheduled 500, .fetchIssued,
         .completeEvent { done := true, error := none, response := some (3 : Nat),
                          name := "op", result := none }] :=
  (C5_fixed_delay_and_complete busyState pendingResp 3 "op"
    (by decide) (by decide)).2.2

/-- C6 (counterexample): the claim fails on the code.  In the run below a
second `complete` subscription arrives after the listener count dropped to
zero while the 500 ms poll timer of the first subscription period was still
pending: the new subscription starts a fresh poll loop and the stale timer
then starts another fetch, leaving two fetches in flight at once. -/
theorem C6_counterexample :
    (run opInit [Action.subscribe, .fetchResolve none pendingResp,
        .unsubscribe, .subscribe, .timerFire]).1.fetchesInFlight = 2 := by
  decide

/-- C6 (amended): registering a further `complete` subscriber while
listeners are active only increments the shared counter (no event, no
duplicate loop); and along every run from construction in which every
subscription happens while the operation is active or has no pending
cycle, at most one poll cycle (in-flight fetch or scheduled timer) is
pending — the bound holds at any time, since the side condition is closed
under prefixes.  A subscription arriving after the listener count dropped
to zero while a cycle is still pending starts a second concurrent loop. -/
theorem C6_amended_single_loop {α : Type} (s : OpState) (acts : List (Action α))
    (hb : s.hasActiveListeners = true)
    (hsafe : subsSafe opInit acts = true) :
    step s (Action.subscribe : Action α)
      = ({ s with completeListeners := s.completeListeners + 1 }, []) ∧
    pending (run opInit acts).1 ≤ 1 := by
  constructor
  · simp [step, hb]
  · exact pendingLe_run acts opInit (by simp [pending, opInit]) hsafe

/-- Witness for the amended C6 at a concrete state and run. -/
theorem C6_amended_witness :
    step busyState (Action.subscribe : Action Nat)
      = ({ busyState with completeListeners := busyState.completeListeners + 1 }, []) ∧
    pending (run opInit [Action.subscribe, Action.subscribe,
        .fetchResolve none pendingResp, .timerFire]).1 ≤ 1 :=
  C6_amended_single_loop busyState
    [Action.subscribe, Action.subscribe, .fetchResolve none pendingResp, .timerFire]
    (by decide) (by decide)

/-- C7: `Operation.prototype.promise` registers an `error` handler (no
listener accounting) and a `complete` handler through the same accounting
as an external subscription — the run is identical to one with an external
`.on(complete)` — so creating the promise alone triggers polling; the
future resolves with the one-element array holding the final metadata of
the terminal `complete` event, and rejects with the payload of the
terminal `error` event. -/
theorem C7_promise_adapter {α : Type} (r : Payload α) (e : α) (acts : List (Action α))
    (hr : r.error = none) (hd : r.done = true) :
    run opInit (promiseCreateActs ++ acts) = run opInit (Action.subscribe :: acts) ∧
    (run opInit (promiseCreateActs ++ [Action.fetchResolve none r])).2
      = [Event.fetchIssued, Event.completeEvent r] ∧
    promiseOutcome (run opInit (promiseCreateActs ++ [Action.fetchResolve none r])).2
      = some (Settle.resolved [r]) ∧
    promiseOutcome (run opInit (promiseCreateActs ++ [Action.fetchResolve (some e) r])).2
      = some (Settle.rejected (ErrVal.transport e)) := by
  obtain ⟨rd, rerr, rresp, rname, rres⟩ := r
  cases hr
  cases hd
  exact ⟨by simp [promiseCreateActs, run, step], rfl, rfl, rfl⟩

/-- Witness for C7 at a concrete payload. -/
theorem C7_witness :
    promiseOutcome (run opInit (promiseCreateActs ++ [Action.fetchResolve none doneResp])).2
      = some (Settle.resolved [doneResp]) :=
  (C7_promise_adapter doneResp 5 [] (by decide) (by decide)).2.2.1

/-- C8 (counterexample): the claim fails on the code.  The two payloads
below agree on `done`, `error`, `response` and `name` and differ only in
`result`, yet the poll cycle emits different `complete` events, because
`complete` carries the entire payload — so those four fields do not
determine the observable behaviour. -/
theorem C8_counterexample :
    doneResp.done = doneRespAlt.done ∧
    doneResp.error = doneRespAlt.error ∧
    doneResp.response = doneRespAlt.response ∧
    doneResp.name = doneRespAlt.name ∧
    (run opInit [Action.subscribe, .fetchResolve none doneResp]).2
      ≠ (run opInit [Action.subscribe, .fetchResolve none doneRespAlt]).2 := by
  refine ⟨rfl, rfl, rfl, rfl, ?_⟩
  decide

/-- C8 (amended): responses agreeing on their `done` and `error` fields —
in particular any two agreeing on `done`, `error`, `response` and `name` —
make the poll cycle take the same choice among rescheduling, emitting
`complete` and emitting `error`; the emitted value, however, is not
determined by those four fields: `complete` carries the entire payload and
a logical error is decorated from the payload's `result` field, which the
core therefore also inspects. -/
theorem C8_amended_choice_depends_on_done_error {α : Type}
    (err : Option α) (p q : Payload α)
    (hdone : p.done = q.done) (herr : p.error = q.error) :
    toChoice (pollCallback err p) = toChoice (pollCallback err q) := by
  cases err with
  | some e => rfl
  | none =>
      simp only [pollCallback]
      rw [herr, hdone]
      split_ifs <;> rfl

/-- Witness for the amended C8 at concrete payloads. -/
theorem C8_amended_witness :
    toChoice (pollCallback none doneResp) = toChoice (pollCallback none doneRespAlt) :=
  C8_amended_choice_depends_on_done_error none doneResp doneRespAlt
    (by decide) (by decide)

/-- C9: `Functions.prototype.operation` on a falsy name (absent or the
empty string) fails immediately and synchronously with the thrown error —
an `Except.error`, not an event — and on a truthy name returns, without
error, a handle holding that name in the inert constructor state. -/
theorem C9_operation_name_validation (n : String) (hn : ¬ n = "") :
    operation none = Except.error "A name must be specified for an operation." ∧
    operation (some "")
      = Except.error "A name must be specified for an operation." ∧
    operation (some n) = Except.ok (newOperation n) := by
  refine ⟨rfl, by simp [operation], ?_⟩
  simp [operation, hn]

/-- Witness for C9 at the documented example operation name. -/
theorem C9_witness :
    operation none = Except.error "A name must be specified for an operation." ∧
    operation (some "")
      = Except.error "A name must be specified for an operation." ∧
    operation (some "68850831366825")
      = Except.ok (newOperation "68850831366825") :=
  C9_operation_name_validation "68850831366825" (by decide)

/-- A freshly formatted Cloud Function path always contains a slash. -/
theorem hasSlash_functionPath (p r n : String) :
    hasSlash (functionPath p r n) = true := by
  have hm : '/' ∈ (functionPath p r n).data := by
    have h1 : '/' ∈ "projects/".data := by decide
    simp only [functionPath, String.data_append, List.mem_append]
    exact Or.inl (Or.inl (Or.inl (Or.inl (Or.inl h1))))
  simpa [hasSlash, List.contains_eq_any_beq, List.any_eq_true] using hm

/-- C10: `Functions.prototype._formatName` is idempotent — formatting an
already-formatted name (one containing a slash) returns it unchanged, and a
freshly built full path always contains a slash, so formatting the result
of formatting equals formatting once, for every client, projectId, region
and name. -/
theorem C10_formatName_idempotent (self : FunctionsClient)
    (projectId region name : String) :
    _formatName self projectId region (_formatName self projectId region name)
      = _formatName self projectId region name := by
  by_cases h : hasSlash name = true
  · simp [_formatName, h]
  · have hfresh := hasSlash_functionPath
      (if projectId = "" then self.projectId else projectId)
      (if region = "" then self.region else region) name
    simp [_formatName, h, hfresh]

end GcloudNode
